import Mathlib

/-!
Verification of the streaming speech-recognition client of
`src/core/voice/doubao_stream_voice_extractor.py` against its
natural-language specification.

Python byte strings are modelled as `List Nat` (each element a byte value);
Python `int` as `Int`/`Nat`; the external `gzip`/`json`/UTF-8 libraries as
function parameters (`gunzip`, `jsonLoads`, `utf8Decode`) returning
`Except Unit _` (an `error` models the library raising an exception);
a Python exception escaping a function as an `Except.error` result.
-/

namespace WaxberryAsr

/-- Protocol constants from the top of `doubao_stream_voice_extractor.py`. -/
def PROTOCOL_VERSION : Nat := 1

def FULL_CLIENT_REQUEST : Nat := 1

def AUDIO_ONLY_REQUEST : Nat := 2

def FULL_SERVER_RESPONSE : Nat := 9

def SERVER_ACK : Nat := 11

def SERVER_ERROR_RESPONSE : Nat := 15

def NO_SEQUENCE : Nat := 0

def POS_SEQUENCE : Nat := 1

def NEG_SEQUENCE : Nat := 2

def NEG_WITH_SEQUENCE : Nat := 3

def NO_SERIALIZATION : Nat := 0

def JSON : Nat := 1

def NO_COMPRESSION : Nat := 0

def GZIP : Nat := 1

/-- Python `int.from_bytes(l, "big", signed=False)`. -/
def bytesToNat (l : List Nat) : Nat :=
  l.foldl (fun a b => a * 256 + b) 0

/-- Python `int.from_bytes(l, "big", signed=True)` (two's complement). -/
def bytesToIntSigned (l : List Nat) : Int :=
  let m := bytesToNat l
  if 2 * m < 2 ^ (8 * l.length) then (m : Int) else (m : Int) - 2 ^ (8 * l.length)

/-- Python `s.to_bytes(4, "big", signed=True)` on an in-range argument
(out-of-range arguments raise `OverflowError` in Python; here the value is
reduced mod `2^32`, which agrees with Python on the in-range values the
client actually produces). -/
def intToBytes4 (s : Int) : List Nat :=
  let m := (s % 4294967296).toNat
  [m / 16777216 % 256, m / 65536 % 256, m / 256 % 256, m % 256]

/-- Python `n.to_bytes(4, "big")` on an in-range argument. -/
def natToBytes4 (n : Nat) : List Nat :=
  [n / 16777216 % 256, n / 65536 % 256, n / 256 % 256, n % 256]

/-- Embeds `generate_header` (lines 42-61): the fixed 4-byte frame header; the local
`header_size` is hard-coded to 1. -/
def generate_header (message_type flags serial_method compression_type reserved_data : Nat) :
    List Nat :=
  [(PROTOCOL_VERSION <<< 4) ||| 1,
   (message_type <<< 4) ||| flags,
   (serial_method <<< 4) ||| compression_type,
   reserved_data]

/-- Embeds `generate_before_payload` (lines 64-67): the 4-byte signed big-endian
sequence number placed before the payload. -/
def generate_before_payload (sequence : Int) : List Nat :=
  intToBytes4 sequence

/-- The frame assembly used by `segment_data_processor` and `process_chunk`
(e.g. lines 212-218, 414-424): header, optional sequence, 4-byte payload
length, payload body.  The body passed in is the already-compressed /
serialized payload, exactly as in the source, where `gzip.compress` is
applied by the caller before the frame is assembled. -/
def encode_frame (message_type flags serial_method compression_type : Nat)
    (seq : Option Int) (payload_bytes : List Nat) : List Nat :=
  generate_header message_type flags serial_method compression_type 0
    ++ (match seq with
        | some s => generate_before_payload s
        | none => [])
    ++ natToBytes4 payload_bytes.length
    ++ payload_bytes

/-- Exceptions that can escape `parse_response`: `IndexError` from `res[0..3]`
on a short input, and the `gzip` / `json` / UTF-8 library exceptions. -/
inductive PErr where
  | indexError
  | gzipError
  | jsonError
  | unicodeError
deriving DecidableEq, Repr

/-- The decoded payload body: raw bytes (no serialization), a UTF-8 string
(unknown serialization codes), or a parsed JSON value (`α`). -/
inductive PayloadVal (α : Type) where
  | bytes : List Nat → PayloadVal α
  | str : String → PayloadVal α
  | json : α → PayloadVal α
deriving DecidableEq, Repr

/-- The `result` dictionary built by `parse_response`; `none` fields model
absent dictionary keys. -/
structure PResult (α : Type) where
  is_last_package : Bool := false
  payload_sequence : Option Int := none
  seq : Option Int := none
  code : Option Nat := none
  payload_msg : Option (PayloadVal α) := none
  payload_size : Option Int := none
deriving DecidableEq, Repr

instance {ε α : Type} [DecidableEq ε] [DecidableEq α] : DecidableEq (Except ε α) := fun a b =>
  match a, b with
  | .error e1, .error e2 =>
    if h : e1 = e2 then isTrue (congrArg Except.error h)
    else isFalse (fun hh => h (Except.error.inj hh))
  | .error _, .ok _ => isFalse (fun hh => Except.noConfusion hh)
  | .ok _, .error _ => isFalse (fun hh => Except.noConfusion hh)
  | .ok v1, .ok v2 =>
    if h : v1 = v2 then isTrue (congrArg Except.ok h)
    else isFalse (fun hh => h (Except.ok.inj hh))

/-- Lines 119-124 of `parse_response`: gzip decompression when
`message_compression == GZIP`, then JSON parsing when
`serialization_method == JSON`, else UTF-8 decoding for any other non-zero
serialization code. -/
def applyTransforms {α : Type} (gunzip : List Nat → Except Unit (List Nat))
    (jsonLoads : List Nat → Except Unit α) (utf8Decode : List Nat → Except Unit String)
    (serialization_method message_compression : Nat) (pm : List Nat) :
    Except PErr (PayloadVal α) :=
  let step1 : Except PErr (List Nat) :=
    if message_compression = GZIP then
      match gunzip pm with
      | .ok b => .ok b
      | .error _ => .error .gzipError
    else .ok pm
  match step1 with
  | .error e => .error e
  | .ok b =>
    if serialization_method = JSON then
      match jsonLoads b with
      | .ok v => .ok (.json v)
      | .error _ => .error .jsonError
    else if serialization_method ≠ NO_SERIALIZATION then
      match utf8Decode b with
      | .ok s => .ok (.str s)
      | .error _ => .error .unicodeError
    else .ok (.bytes b)

/-- Embeds `parse_response` (lines 70-127).  An input of fewer than 4 bytes raises
`IndexError` at `res[0]`..`res[3]` (modelled as `.error .indexError`); all
later accesses are Python slices, which never raise. -/
def parse_response {α : Type} (gunzip : List Nat → Except Unit (List Nat))
    (jsonLoads : List Nat → Except Unit α) (utf8Decode : List Nat → Except Unit String)
    (res : List Nat) : Except PErr (PResult α) :=
  if res.length < 4 then .error .indexError
  else
    let header_size := res.getD 0 0 &&& 15
    let message_type := res.getD 1 0 >>> 4
    let flags := res.getD 1 0 &&& 15
    let serialization_method := res.getD 2 0 >>> 4
    let message_compression := res.getD 2 0 &&& 15
    let payload0 := res.drop (header_size * 4)
    let pseq : Option Int :=
      if flags &&& 1 ≠ 0 then some (bytesToIntSigned (payload0.take 4)) else none
    let payload1 := if flags &&& 1 ≠ 0 then payload0.drop 4 else payload0
    let base : PResult α :=
      { is_last_package := flags &&& 2 != 0, payload_sequence := pseq }
    if message_type = FULL_SERVER_RESPONSE then
      let psize := bytesToIntSigned (payload1.take 4)
      match applyTransforms gunzip jsonLoads utf8Decode serialization_method
          message_compression (payload1.drop 4) with
      | .error e => .error e
      | .ok v => .ok { base with payload_msg := some v, payload_size := some psize }
    else if message_type = SERVER_ACK then
      let e := bytesToIntSigned (payload1.take 4)
      if 8 ≤ payload1.length then
        let psize : Int := bytesToNat ((payload1.drop 4).take 4)
        match applyTransforms gunzip jsonLoads utf8Decode serialization_method
            message_compression (payload1.drop 8) with
        | .error er => .error er
        | .ok v =>
          .ok { base with seq := some e, payload_msg := some v, payload_size := some psize }
      else .ok { base with seq := some e }
    else if message_type = SERVER_ERROR_RESPONSE then
      let c := bytesToNat (payload1.take 4)
      let psize : Int := bytesToNat ((payload1.drop 4).take 4)
      match applyTransforms gunzip jsonLoads utf8Decode serialization_method
          message_compression (payload1.drop 8) with
      | .error er => .error er
      | .ok v =>
        .ok { base with code := some c, payload_msg := some v, payload_size := some psize }
    else .ok base

/-- One entry of `utterance['words']`: only the `'text'` key is read. -/
structure Word where
  text : String
deriving DecidableEq, Repr

/-- One entry of `msg['result']['utterances']`; `words = none` models a
dictionary without a `'words'` key. -/
structure Utterance where
  words : Option (List Word) := none
deriving DecidableEq, Repr

/-- The `msg['result']` dictionary: `text` read via `.get('text', '')`,
`utterances` guarded by `'utterances' in msg['result']`. -/
structure AsrResult where
  text : Option String := none
  utterances : Option (List Utterance) := none
deriving DecidableEq, Repr

/-- The decoded JSON payload of a server response, as read by
`process_chunk`: the `'result'` and `'is_final'` keys. -/
structure PayloadMsg where
  result : Option AsrResult := none
  is_final : Option Bool := none
deriving DecidableEq, Repr

/-- The fields of the `parse_response` result dictionary that
`process_chunk` reads: `result.get('payload_sequence', 0)` and
`result['payload_msg']`. -/
structure DecodedResponse where
  payload_msg : Option PayloadMsg := none
  payload_sequence : Option Int := none
deriving DecidableEq, Repr

/-- The per-session tracker state of `AsrWsClient` (`__init__` lines
166-169): `_last_text`, `_last_sequence`, `_accumulated_text`,
`_last_words`. -/
structure TrackerState where
  last_text : String := ""
  accumulated_text : String := ""
  last_sequence : Int := 0
  last_words : List String := []
deriving DecidableEq, Repr

/-- The dictionary returned by `process_chunk` (lines 486-501); the success
path carries no `'error'` key (`error = none`). -/
structure ChunkResult where
  error : Option String := none
  partial_text : String
  is_final : Bool
  full_text : String
  sequence : Int
deriving DecidableEq, Repr

/-- Lines 450-454: flatten `utterances[].words[].text` in order into
`current_words`; an utterance without a `'words'` key contributes
nothing. -/
def wordsOf (r : AsrResult) : List String :=
  match r.utterances with
  | none => []
  | some us => (us.map (fun u => (u.words.getD []).map Word.text)).flatten

/-- The result-tracking section of `process_chunk` (lines 438-491), acting
on one decoded response: returns the updated tracker state and the returned
dictionary.  Mirrors the source exactly: the delta branch requires a
non-empty `current_text` (Python truthiness) and a strictly greater
sequence number; `new_words` keeps the current words not present in
`last_words`; `_last_text` and `_last_sequence` are updated even when
`new_words` is empty. -/
def process_result (st : TrackerState) (resp : DecodedResponse) :
    TrackerState × ChunkResult :=
  match resp.payload_msg with
  | none =>
    (st, { partial_text := "", is_final := false,
           full_text := st.accumulated_text, sequence := st.last_sequence })
  | some msg =>
    match msg.result with
    | none =>
      (st, { partial_text := "", is_final := false,
             full_text := st.accumulated_text, sequence := st.last_sequence })
    | some r =>
      let current_text := r.text.getD ""
      let is_final := msg.is_final.getD false
      let current_sequence := resp.payload_sequence.getD 0
      let current_words := wordsOf r
      if current_text ≠ "" ∧ st.last_sequence < current_sequence then
        let new_words := current_words.filter (fun w => decide (w ∉ st.last_words))
        if new_words = [] then
          let st' : TrackerState :=
            { st with last_text := current_text, last_sequence := current_sequence }
          (st', { partial_text := "", is_final := is_final,
                  full_text := st'.accumulated_text, sequence := st'.last_sequence })
        else
          let st' : TrackerState :=
            { last_text := current_text, accumulated_text := current_text,
              last_sequence := current_sequence, last_words := current_words }
          (st', { partial_text := String.join new_words, is_final := is_final,
                  full_text := st'.accumulated_text, sequence := st'.last_sequence })
      else
        (st, { partial_text := "", is_final := is_final,
               full_text := st.accumulated_text, sequence := st.last_sequence })

/-- Embeds `process_chunk` (lines 316-501) as seen by the tracker claims: the
network round-trip (connect / send / recv / `parse_response`) either
delivers a decoded response or raises, which the `try`/`except` at lines
493-501 converts into the structured error dictionary. `outcome` is that
round-trip's result; the state is unchanged on the error path because the
tracker fields are only mutated by the result-tracking section. -/
def process_chunk (st : TrackerState) (outcome : Except String DecodedResponse) :
    TrackerState × ChunkResult :=
  match outcome with
  | .error e =>
    (st, { error := some e, partial_text := "", is_final := false,
           full_text := st.accumulated_text, sequence := st.last_sequence })
  | .ok resp => process_result st resp

/-- The segment-size computation of `execute` (lines 294-311), per format.
Python's float division followed by `int(...)` truncation is modelled as
natural division.  The `wav` branch reads `nchannels`, `sampwidth`,
`framerate` from the file header; an unsupported format raises
(`none`). -/
def execute_segment_size (format : String) (rate channel seg_duration mp3_seg_size : Nat)
    (nchannels sampwidth framerate : Nat) : Option Nat :=
  if format = "mp3" then some mp3_seg_size
  else if format = "wav" then some (nchannels * sampwidth * framerate * seg_duration / 1000)
  else if format = "pcm" then some (rate * 2 * channel * seg_duration / 500)
  else none

/-- The audio-frame construction of `process_chunk` (lines 392-424): the
session counter `_sequence` is incremented, `is_last` is the literal
`False` of line 394, the header takes `AUDIO_ONLY_REQUEST` with
`NEG_WITH_SEQUENCE` or `POS_SEQUENCE` by `is_last`, and the wire sequence
is negated for a terminal frame.  Returns the new `_sequence` and the frame
bytes (`payload_bytes` is the already gzip-compressed chunk). -/
def process_chunk_audio_frame (sequence : Int) (payload_bytes : List Nat) :
    Int × List Nat :=
  let sequence' := sequence + 1
  let is_last := false
  let header := generate_header AUDIO_ONLY_REQUEST
    (if is_last then NEG_WITH_SEQUENCE else POS_SEQUENCE) JSON GZIP 0
  let seq := if is_last then -sequence' else sequence'
  (sequence',
   header ++ generate_before_payload seq
     ++ natToBytes4 payload_bytes.length ++ payload_bytes)

/-- Identity stand-in for `gzip.decompress`, used to evaluate the codec at
concrete inputs whose compression nibble is `NO_COMPRESSION`, or paired with
an identity compressor. -/
def idGunzip : List Nat → Except Unit (List Nat) := fun l => .ok l

/-- Always-failing stand-in for `json.loads`, used at concrete inputs whose
serialization nibble is `NO_SERIALIZATION` (the function is never reached). -/
def noJson : List Nat → Except Unit Unit := fun _ => .error ()

/-- Trivial stand-in for UTF-8 decoding, never reached at the concrete
inputs used below. -/
def emptyUtf8 : List Nat → Except Unit String := fun _ => .ok ""

/-- Concrete recognition result used to evaluate the tracker: cumulative
text `"ab"` with one utterance carrying the words `"a"` and `"b"`. -/
def sampleResult : AsrResult :=
  { text := some "ab",
    utterances := some [{ words := some [{ text := "a" }, { text := "b" }] }] }

/-- Concrete decoded payload wrapping `sampleResult`. -/
def sampleMsg : PayloadMsg :=
  { result := some sampleResult, is_final := some false }

theorem bytesToIntSigned_intToBytes4 (s : Int) (h1 : -(2 ^ 31) ≤ s) (h2 : s < 2 ^ 31) :
    bytesToIntSigned (intToBytes4 s) = s := by
  have ht0 : 0 ≤ s % 4294967296 := Int.emod_nonneg s (by norm_num)
  have ht1 : s % 4294967296 < 4294967296 := Int.emod_lt_of_pos s (by norm_num)
  have hm : ((s % 4294967296).toNat : Int) = s % 4294967296 := Int.toNat_of_nonneg ht0
  simp only [bytesToIntSigned, bytesToNat, intToBytes4, List.foldl, List.length_cons,
    List.length_nil]
  have hrec : (((0 * 256 + (s % 4294967296).toNat / 16777216 % 256) * 256 +
      (s % 4294967296).toNat / 65536 % 256) * 256 +
      (s % 4294967296).toNat / 256 % 256) * 256 +
      (s % 4294967296).toNat % 256 = (s % 4294967296).toNat := by omega
  rw [hrec]
  split <;> omega

theorem bytesToIntSigned_natToBytes4 (n : Nat) (h : n < 2 ^ 31) :
    bytesToIntSigned (natToBytes4 n) = n := by
  simp only [bytesToIntSigned, bytesToNat, natToBytes4, List.foldl, List.length_cons,
    List.length_nil]
  have hrec : (((0 * 256 + n / 16777216 % 256) * 256 + n / 65536 % 256) * 256 +
      n / 256 % 256) * 256 + n % 256 = n := by omega
  rw [hrec]
  split <;> omega

/-- Claim C9 (confirmed): whenever processing an audio chunk raises any
error, `process_chunk` returns a structured result carrying the error with
`partial_text = ""`, `is_final = false`, and `full_text` equal to the
accumulated transcript, and leaves the tracker state unchanged, so the
caller never loses the transcript accumulated so far. -/
theorem c9_error_preserves_transcript (st : TrackerState) (e : String) :
    process_chunk st (.error e) =
      (st, { error := some e, partial_text := "", is_final := false,
             full_text := st.accumulated_text, sequence := st.last_sequence }) := rfl

/-- Claim C4 (amended): in batch mode with format `"pcm"`, `execute`
computes the segment size as `int(rate * 2 * channel * seg_duration / 500)`
bytes, i.e. twice `sample_rate * bytes_per_sample * channel_count *
segment_duration_ms / 1000`. -/
theorem c4_pcm_segment_size_amended (rate channel seg_duration mp3_seg_size
    nchannels sampwidth framerate : Nat) :
    execute_segment_size "pcm" rate channel seg_duration mp3_seg_size
        nchannels sampwidth framerate =
      some (rate * 2 * channel * seg_duration * 2 / 1000) := by
  rw [execute_segment_size, if_neg (by decide), if_neg (by decide), if_pos rfl]
  congr 1
  have h : rate * 2 * channel * seg_duration * 2 / 1000 =
      rate * 2 * channel * seg_duration * 2 / (500 * 2) := by norm_num
  rw [h, Nat.mul_div_mul_right _ _ (by norm_num : (0 : Nat) < 2)]

/-- Claim C4 (counterexample): for rate 16000, 16-bit samples, 1 channel,
100 ms segments the code produces 6400-byte segments, not the
`16000 * 2 * 1 * 100 / 1000 = 3200` bytes the claim states. -/
theorem c4_pcm_segment_size_counterexample :
    execute_segment_size "pcm" 16000 1 100 1000 0 0 0 = some 6400 ∧
      (6400 : Nat) ≠ 16000 * 2 * 1 * 100 / 1000 := by decide

/-- Claim C10 (confirmed): every audio frame emitted by the live-streaming
path of `process_chunk` carries flags `POS_SEQUENCE` with the strictly
positive, strictly increased sequence number `s + 1`; because `is_last` is
fixed to `False`, the flags nibble is never `NEG_WITH_SEQUENCE` and the
wire sequence is never negated, so this operation can never signal
end-of-audio. -/
theorem c10_live_frames_never_terminal (s : Int) (p : List Nat) (h : 0 < s) :
    (process_chunk_audio_frame s p).1 = s + 1 ∧
      s < (process_chunk_audio_frame s p).1 ∧
      0 < (process_chunk_audio_frame s p).1 ∧
      (process_chunk_audio_frame s p).2.getD 1 0 = (AUDIO_ONLY_REQUEST <<< 4) ||| POS_SEQUENCE ∧
      (process_chunk_audio_frame s p).2.getD 1 0 &&& 15 = POS_SEQUENCE ∧
      (process_chunk_audio_frame s p).2.getD 1 0 &&& 15 ≠ NEG_WITH_SEQUENCE ∧
      ((process_chunk_audio_frame s p).2.drop 4).take 4 =
        intToBytes4 ((process_chunk_audio_frame s p).1) := by
  have h1 : (process_chunk_audio_frame s p).1 = s + 1 := rfl
  have h2 : (process_chunk_audio_frame s p).2.getD 1 0 = 33 := by
    simp [process_chunk_audio_frame, generate_header, AUDIO_ONLY_REQUEST, POS_SEQUENCE,
      NEG_WITH_SEQUENCE, PROTOCOL_VERSION, JSON, GZIP, List.getD]
  refine ⟨h1, by omega, by omega, ?_, ?_, ?_, ?_⟩
  · rw [h2]; decide
  · rw [h2]; decide
  · rw [h2]; decide
  · simp [process_chunk_audio_frame, generate_header, generate_before_payload,
      intToBytes4, natToBytes4, AUDIO_ONLY_REQUEST, POS_SEQUENCE, NEG_WITH_SEQUENCE,
      PROTOCOL_VERSION, JSON, GZIP]

/-- Witness for C10 at `s = 1` with an empty payload. -/
theorem c10_live_frames_never_terminal_witness :
    (process_chunk_audio_frame 1 []).1 = 1 + 1 ∧
      (1 : Int) < (process_chunk_audio_frame 1 []).1 ∧
      (0 : Int) < (process_chunk_audio_frame 1 []).1 ∧
      (process_chunk_audio_frame 1 []).2.getD 1 0 = (AUDIO_ONLY_REQUEST <<< 4) ||| POS_SEQUENCE ∧
      (process_chunk_audio_frame 1 []).2.getD 1 0 &&& 15 = POS_SEQUENCE ∧
      (process_chunk_audio_frame 1 []).2.getD 1 0 &&& 15 ≠ NEG_WITH_SEQUENCE ∧
      ((process_chunk_audio_frame 1 []).2.drop 4).take 4 =
        intToBytes4 ((process_chunk_audio_frame 1 []).1) :=
  c10_live_frames_never_terminal 1 [] (by decide)

/-- Parsing a `FULL_SERVER_RESPONSE` frame whose flags nibble has the
sequence bit set, with gzip compression and no serialization: the byte
layout is header, 4-byte sequence, 4-byte size, body. -/
theorem parse_server_gz {α : Type} (g : List Nat → Except Unit (List Nat))
    (jl : List Nat → Except Unit α) (u8 : List Nat → Except Unit String)
    (b1 : Nat) (sq sizeBytes body p : List Nat)
    (hty : b1 >>> 4 = 9) (hfl1 : b1 % 2 = 1)
    (hsq : sq.length = 4) (hsz : sizeBytes.length = 4)
    (hg : g body = .ok p) :
    parse_response g jl u8 (17 :: b1 :: 1 :: 0 :: (sq ++ (sizeBytes ++ body))) =
      .ok { is_last_package := (b1 &&& 15) &&& 2 != 0,
            payload_sequence := some (bytesToIntSigned sq),
            payload_msg := some (.bytes p),
            payload_size := some (bytesToIntSigned sizeBytes) } := by
  have e1 : (17 : Nat) &&& 15 = 1 := by decide
  have e4 : (1 : Nat) >>> 4 = 0 := by decide
  have e5 : (1 : Nat) &&& 15 = 1 := by decide
  simp [parse_response, applyTransforms, e1, e4, e5, hty, hfl1, hg,
    FULL_SERVER_RESPONSE, GZIP, JSON, NO_SERIALIZATION, List.getD,
    List.take_left' hsq, List.drop_left' hsq, List.take_left' hsz, List.drop_left' hsz]

/-- Claim C1 (counterexample): the bytes of an encoded `FULL_CLIENT_REQUEST`
frame carrying payload `[42]` decode to a result that contains neither the
message kind nor any payload (`payload_msg` is absent), so
`decode(encode(x)) == x` fails for this valid combination. -/
theorem c1_roundtrip_counterexample :
    parse_response idGunzip noJson emptyUtf8
        (encode_frame FULL_CLIENT_REQUEST POS_SEQUENCE NO_SERIALIZATION NO_COMPRESSION
          (some 1) [42]) =
      .ok { payload_sequence := some 1 } := by decide

/-- Claim C1 (amended): for `FULL_SERVER_RESPONSE` frames whose flags nibble
has the sequence bit set, encoded with gzip compression and no
serialization, decoding the encoder's bytes yields the interpreted terminal
flag, the sequence number, and a payload content-equal to the original
after decompression (`g compressed = .ok p`); the decoder never reports the
message kind, and client-kind frames decode with no payload at all. -/
theorem c1_server_roundtrip_amended {α : Type} (g : List Nat → Except Unit (List Nat))
    (jl : List Nat → Except Unit α) (u8 : List Nat → Except Unit String)
    (compressed p : List Nat) (f : Nat) (s : Int)
    (hf : f < 16) (hf1 : f &&& 1 ≠ 0)
    (hs1 : -(2 ^ 31) ≤ s) (hs2 : s < 2 ^ 31) (hlen : compressed.length < 2 ^ 31)
    (hg : g compressed = .ok p) :
    parse_response g jl u8
        (encode_frame FULL_SERVER_RESPONSE f NO_SERIALIZATION GZIP (some s) compressed) =
      .ok { is_last_package := f &&& 2 != 0,
            payload_sequence := some s,
            payload_msg := some (.bytes p),
            payload_size := some (compressed.length : Int) } := by
  have hb1 : ((9 : Nat) <<< 4 ||| f) >>> 4 = 9 := by interval_cases f <;> decide
  have hb2 : ((9 : Nat) <<< 4 ||| f) &&& 15 = f := by interval_cases f <;> decide
  have hb3 : ((9 : Nat) <<< 4 ||| f) % 2 = 1 := by
    interval_cases f <;> first | decide | exact absurd hf1 (by decide)
  have henc : encode_frame FULL_SERVER_RESPONSE f NO_SERIALIZATION GZIP (some s) compressed =
      17 :: ((9 : Nat) <<< 4 ||| f) :: 1 :: 0 ::
        (intToBytes4 s ++ (natToBytes4 compressed.length ++ compressed)) := by
    simp [encode_frame, generate_header, generate_before_payload,
      FULL_SERVER_RESPONSE, NO_SERIALIZATION, GZIP, PROTOCOL_VERSION]
  rw [henc,
    parse_server_gz g jl u8 ((9 : Nat) <<< 4 ||| f) (intToBytes4 s)
      (natToBytes4 compressed.length) compressed p hb1 hb3 rfl rfl hg,
    hb2, bytesToIntSigned_intToBytes4 s hs1 hs2, bytesToIntSigned_natToBytes4 _ hlen]

/-- Witness for the amended C1 at flags 3, sequence 7, payload `[5, 6]`
with an identity compressor. -/
theorem c1_server_roundtrip_amended_witness :
    parse_response idGunzip noJson emptyUtf8
        (encode_frame FULL_SERVER_RESPONSE 3 NO_SERIALIZATION GZIP (some 7) [5, 6]) =
      .ok { is_last_package := true,
            payload_sequence := some 7,
            payload_msg := some (.bytes [5, 6]),
            payload_size := some 2 } :=
  c1_server_roundtrip_amended idGunzip noJson emptyUtf8 [5, 6] [5, 6] 3 7
    (by decide) (by decide) (by decide) (by decide) (by decide) rfl

/-- Claim C3 (counterexample): decoding the empty input raises `IndexError`
(the error escapes `parse_response` unhandled) instead of returning a
`MalformedFrame` value — no such error exists in the code — and a frame
declaring payload size 16 with zero remaining bytes decodes without any
error, returning the empty body. -/
theorem c3_malformed_counterexample :
    parse_response idGunzip noJson emptyUtf8 [] = .error .indexError ∧
      parse_response idGunzip noJson emptyUtf8 [17, 144, 0, 0, 0, 0, 0, 16] =
        .ok { payload_msg := some (.bytes []), payload_size := some 16 } := by decide

/-- Claim C3 (amended): every input of fewer than 4 bytes makes
`parse_response` raise `IndexError` (an unhandled exception, not a
`MalformedFrame` result), and a declared payload size exceeding the
remaining buffer is never checked: the decoder returns successfully with
the truncated body. -/
theorem c3_malformed_amended {α : Type} (g : List Nat → Except Unit (List Nat))
    (jl : List Nat → Except Unit α) (u8 : List Nat → Except Unit String) :
    (∀ res : List Nat, res.length < 4 →
        parse_response g jl u8 res = .error .indexError) ∧
      parse_response g jl u8 [17, 144, 0, 0, 0, 0, 0, 16] =
        .ok { payload_msg := some (.bytes []), payload_size := some 16 } := by
  constructor
  · intro res h
    simp [parse_response, h]
  · have e1 : (17 : Nat) &&& 15 = 1 := by decide
    have e2 : (144 : Nat) >>> 4 = 9 := by decide
    have e3 : (144 : Nat) &&& 15 = 0 := by decide
    have e4 : (0 : Nat) >>> 4 = 0 := by decide
    have e5 : (0 : Nat) &&& 15 = 0 := by decide
    simp [parse_response, applyTransforms, e1, e2, e3, e4, e5,
      FULL_SERVER_RESPONSE, GZIP, JSON, NO_SERIALIZATION, List.getD,
      bytesToIntSigned, bytesToNat]

/-- Witness for the amended C3 at the 3-byte input `[17, 144, 0]`. -/
theorem c3_malformed_amended_witness :
    parse_response idGunzip noJson emptyUtf8 [17, 144, 0] = .error .indexError :=
  (c3_malformed_amended idGunzip noJson emptyUtf8).1 [17, 144, 0] (by decide)

/-- Claim C5 (confirmed): any frame whose flags nibble has bit 1 set — in
particular flags `NEG_WITH_SEQUENCE` — that `parse_response` decodes
successfully is marked terminal, `is_last_package = true`, regardless of
the message kind. -/
theorem c5_terminal_flag {α : Type} (g : List Nat → Except Unit (List Nat))
    (jl : List Nat → Except Unit α) (u8 : List Nat → Except Unit String)
    (res : List Nat) (r : PResult α)
    (hbit : (res.getD 1 0 &&& 15) &&& 2 ≠ 0)
    (hok : parse_response g jl u8 res = .ok r) :
    r.is_last_package = true := by
  rw [parse_response] at hok
  split at hok
  · exact absurd hok (by simp)
  · simp only at hok
    repeat' split at hok
    all_goals first
      | exact Except.noConfusion hok
      | (rw [Except.ok.injEq] at hok
         subst hok
         exact bne_iff_ne.mpr hbit)

/-- Witness for C5: a `FULL_SERVER_RESPONSE` frame with flags nibble 2. -/
theorem c5_terminal_flag_witness :
    (([17, 146, 0, 0] : List Nat).getD 1 0 &&& 15) &&& 2 ≠ 0 ∧
      ({ is_last_package := true, payload_msg := some (.bytes []),
         payload_size := some 0 } : PResult Unit).is_last_package = true :=
  ⟨by decide,
    c5_terminal_flag idGunzip noJson emptyUtf8 [17, 146, 0, 0]
      { is_last_package := true, payload_msg := some (.bytes []), payload_size := some 0 }
      (by decide) (by decide)⟩

/-- Claim C6 (counterexample): a `FULL_SERVER_RESPONSE` frame declaring
payload size 5 with a 2-byte body decodes with no error and returns the
mismatched body `[1, 2]` unchanged — it is not treated as empty. -/
theorem c6_size_mismatch_counterexample :
    parse_response idGunzip noJson emptyUtf8 [17, 144, 0, 0, 0, 0, 0, 5, 1, 2] =
      .ok { payload_msg := some (.bytes [1, 2]), payload_size := some 5 } := by decide

/-- Claim C6 (amended): for a `FULL_SERVER_RESPONSE` frame the declared
4-byte size is recorded in `payload_size` but never compared with the body
length; the entire remainder after the size field is returned as the body,
mismatched or not, with no decode error. -/
theorem c6_size_mismatch_amended {α : Type} (g : List Nat → Except Unit (List Nat))
    (jl : List Nat → Except Unit α) (u8 : List Nat → Except Unit String)
    (sizeBytes body : List Nat) (h4 : sizeBytes.length = 4) :
    parse_response g jl u8 (17 :: 144 :: 0 :: 0 :: (sizeBytes ++ body)) =
      .ok { payload_msg := some (.bytes body),
            payload_size := some (bytesToIntSigned sizeBytes) } := by
  have e1 : (17 : Nat) &&& 15 = 1 := by decide
  have e2 : (144 : Nat) >>> 4 = 9 := by decide
  have e3 : (144 : Nat) &&& 15 = 0 := by decide
  have e4 : (0 : Nat) >>> 4 = 0 := by decide
  have e5 : (0 : Nat) &&& 15 = 0 := by decide
  simp [parse_response, applyTransforms, e1, e2, e3, e4, e5,
    FULL_SERVER_RESPONSE, SERVER_ACK, SERVER_ERROR_RESPONSE, GZIP, JSON, NO_SERIALIZATION,
    List.getD, List.take_left' h4, List.drop_left' h4]

/-- Witness for the amended C6 with declared size 260 and body `[9]`. -/
theorem c6_size_mismatch_amended_witness :
    parse_response idGunzip noJson emptyUtf8 (17 :: 144 :: 0 :: 0 :: ([0, 0, 1, 4] ++ [9])) =
      .ok { payload_msg := some (.bytes [9]),
            payload_size := some (bytesToIntSigned [0, 0, 1, 4]) } :=
  c6_size_mismatch_amended idGunzip noJson emptyUtf8 [0, 0, 1, 4] [9] rfl

/-- One `process_chunk` call never decreases `_last_sequence`. -/
theorem process_chunk_state_mono (st : TrackerState) (o : Except String DecodedResponse) :
    st.last_sequence ≤ (process_chunk st o).1.last_sequence := by
  rcases o with e | resp
  · simp [process_chunk]
  · rcases resp with ⟨pm, ps⟩
    rcases pm with _ | ⟨mres, mfin⟩
    · simp [process_chunk, process_result]
    · rcases mres with _ | r
      · simp [process_chunk, process_result]
      · simp only [process_chunk, process_result]
        split
        next h =>
          split <;> simp <;> exact le_of_lt h.2
        next h => simp

/-- Any sequence of `process_chunk` calls never decreases `_last_sequence`. -/
theorem process_chunk_foldl_mono (outs : List (Except String DecodedResponse))
    (st : TrackerState) :
    st.last_sequence ≤
      (outs.foldl (fun s o => (process_chunk s o).1) st).last_sequence := by
  induction outs generalizing st with
  | nil => simp
  | cons o rest ih =>
    exact le_trans (process_chunk_state_mono st o) (ih (process_chunk st o).1)

/-- A response whose sequence number is not strictly greater than
`_last_sequence` leaves the tracker state unchanged and produces an empty
delta. -/
theorem process_result_stale (st : TrackerState) (resp : DecodedResponse)
    (hle : resp.payload_sequence.getD 0 ≤ st.last_sequence) :
    (process_result st resp).1 = st ∧ (process_result st resp).2.partial_text = "" := by
  rcases resp with ⟨pm, ps⟩
  rcases pm with _ | ⟨mres, mfin⟩
  · simp [process_result]
  · rcases mres with _ | r
    · simp [process_result]
    · simp only [process_result]
      split
      next h => exact absurd h.2 (by simp_all; omega)
      next h => simp

/-- Every emitted `partial_text` is the concatenation of a list of words
none of which is already in `_last_words`. -/
theorem process_result_partial_join (st : TrackerState) (resp : DecodedResponse) :
    ∃ ws : List String, (process_result st resp).2.partial_text = String.join ws ∧
      ∀ w ∈ ws, w ∉ st.last_words := by
  rcases resp with ⟨pm, ps⟩
  rcases pm with _ | ⟨mres, mfin⟩
  · exact ⟨[], by simp [process_result, String.join], by simp⟩
  · rcases mres with _ | r
    · exact ⟨[], by simp [process_result, String.join], by simp⟩
    · simp only [process_result]
      split
      next h =>
        split
        next hnw => exact ⟨[], by simp [String.join], by simp⟩
        next hnw =>
          refine ⟨(wordsOf r).filter (fun w => decide (w ∉ st.last_words)), by simp, ?_⟩
          intro w hw
          have := List.mem_filter.mp hw
          exact of_decide_eq_true this.2
      next h => exact ⟨[], by simp [String.join], by simp⟩

/-- Claim C2 (confirmed): over any sequence of decoded responses
`last_sequence` never decreases; a response whose sequence number is not
strictly greater than `last_sequence` contributes no delta — `partial_text`
is empty and the whole tracker state (`accumulated_text`, `last_words`,
`last_sequence`) is unchanged; and the returned `partial_text` is a
concatenation of words none of which was in `last_words` at the start of
the call. -/
theorem c2_tracker_monotone (st : TrackerState) (outcome : Except String DecodedResponse) :
    st.last_sequence ≤ (process_chunk st outcome).1.last_sequence ∧
      (∀ resp : DecodedResponse, outcome = .ok resp →
        resp.payload_sequence.getD 0 ≤ st.last_sequence →
        (process_chunk st outcome).1 = st ∧
          (process_chunk st outcome).2.partial_text = "") ∧
      (∃ ws : List String, (process_chunk st outcome).2.partial_text = String.join ws ∧
        ∀ w ∈ ws, w ∉ st.last_words) ∧
      ∀ outs : List (Except String DecodedResponse),
        st.last_sequence ≤
          (outs.foldl (fun s o => (process_chunk s o).1) st).last_sequence := by
  refine ⟨process_chunk_state_mono st outcome, ?_, ?_,
    fun outs => process_chunk_foldl_mono outs st⟩
  · intro resp heq hle
    subst heq
    exact process_result_stale st resp hle
  · rcases outcome with e | resp
    · exact ⟨[], by simp [process_chunk, String.join], by simp⟩
    · exact process_result_partial_join st resp

/-- Witness for C2: a stale response (sequence 3 against `last_sequence` 5)
leaves the state unchanged with an empty delta. -/
theorem c2_tracker_monotone_witness :
    (process_chunk { last_sequence := 5 } (.ok { payload_sequence := some 3 })).1 =
        ({ last_sequence := 5 } : TrackerState) ∧
      (process_chunk { last_sequence := 5 }
          (.ok { payload_sequence := some 3 })).2.partial_text = "" :=
  (c2_tracker_monotone { last_sequence := 5 } (.ok { payload_sequence := some 3 })).2.1
    { payload_sequence := some 3 } rfl (by decide)

/-- Claim C8 (confirmed): feeding the same decoded response to the tracker
twice in succession yields an empty `partial_text` on the second call, and
the accumulated text is unchanged by the second call. -/
theorem c8_duplicate_response_idempotent (st : TrackerState) (resp : DecodedResponse) :
    (process_chunk (process_chunk st (.ok resp)).1 (.ok resp)).2.partial_text = "" ∧
      (process_chunk (process_chunk st (.ok resp)).1 (.ok resp)).1.accumulated_text =
        (process_chunk st (.ok resp)).1.accumulated_text := by
  rcases resp with ⟨pm, ps⟩
  rcases pm with _ | ⟨mres, mfin⟩
  · simp [process_chunk, process_result]
  rcases mres with _ | r
  · simp [process_chunk, process_result]
  simp only [process_chunk, process_result]
  by_cases hc : (r.text.getD "" ≠ "" ∧ st.last_sequence < (ps.getD 0 : Int))
  · rw [if_pos hc]
    by_cases hnw : List.filter (fun w => decide (w ∉ st.last_words)) (wordsOf r) = []
    · rw [if_pos hnw]
      simp
    · rw [if_neg hnw]
      simp
  · rw [if_neg hc]
    simp [hc]

/-- Claim C7 (confirmed): when a decoded response carries non-empty text, a
sequence number strictly greater than `last_sequence`, and a non-empty list
of current words absent from `last_words`, `process_chunk` sets
`accumulated_text` to the response's cumulative text, returns
`partial_text` equal to the in-order concatenation of the new words, sets
`last_words` to the current word list, and sets `last_sequence` to the
response's sequence number. -/
theorem c7_new_words_delta (st : TrackerState) (msg : PayloadMsg) (r : AsrResult)
    (sq : Option Int)
    (hmsg : msg.result = some r)
    (htext : r.text.getD "" ≠ "")
    (hseq : st.last_sequence < sq.getD 0)
    (hnw : (wordsOf r).filter (fun w => decide (w ∉ st.last_words)) ≠ []) :
    (process_chunk st (.ok ⟨some msg, sq⟩)).1.accumulated_text = r.text.getD "" ∧
      (process_chunk st (.ok ⟨some msg, sq⟩)).2.partial_text =
        String.join ((wordsOf r).filter (fun w => decide (w ∉ st.last_words))) ∧
      (process_chunk st (.ok ⟨some msg, sq⟩)).1.last_words = wordsOf r ∧
      (process_chunk st (.ok ⟨some msg, sq⟩)).1.last_sequence = sq.getD 0 := by
  rcases msg with ⟨mres, mfin⟩
  simp only [PayloadMsg.result] at hmsg
  subst hmsg
  have hc : (r.text.getD "" ≠ "" ∧ st.last_sequence < (sq.getD 0 : Int)) := ⟨htext, hseq⟩
  refine ⟨?_, ?_, ?_, ?_⟩ <;>
    (simp only [process_chunk, process_result]; rw [if_pos hc, if_neg hnw]; try simp)

/-- Witness for C7: from the fresh state, a response with text `"ab"`,
words `["a", "b"]` and sequence 2 yields delta `"ab"`. -/
theorem c7_new_words_delta_witness :
    (process_chunk {} (.ok ⟨some sampleMsg, some 2⟩)).1.accumulated_text =
        sampleResult.text.getD "" ∧
      (process_chunk {} (.ok ⟨some sampleMsg, some 2⟩)).2.partial_text =
        String.join ((wordsOf sampleResult).filter
          (fun w => decide (w ∉ ({} : TrackerState).last_words))) ∧
      (process_chunk {} (.ok ⟨some sampleMsg, some 2⟩)).1.last_words =
        wordsOf sampleResult ∧
      (process_chunk {} (.ok ⟨some sampleMsg, some 2⟩)).1.last_sequence =
        (some (2 : Int)).getD 0 :=
  c7_new_words_delta {} sampleMsg sampleResult (some 2) rfl (by decide) (by decide)
    (by decide)

end WaxberryAsr
